import Mathlib

set_option maxRecDepth 8192

/-! Shallow embedding of `faderport.py`: the FaderPort button registry, the
character matrix, the fader codec and the inbound MIDI message dispatcher,
with theorems checking the specification's claims about them. -/

/-- A FaderPort button: its name, the MIDI note received when it is pressed
or released, and the MIDI note sent to light it
(`Button = namedtuple('Button', ['name', 'press', 'light'])`). -/
structure Button where
  name : String
  press : Nat
  light : Nat
deriving DecidableEq, Repr

/-- The `BUTTONS` table of `faderport.py`, in source order. -/
def BUTTONS : List Button := [
  ⟨"Mute", 18, 21⟩,
  ⟨"Solo", 17, 22⟩,
  ⟨"Rec", 16, 23⟩,
  ⟨"Output", 22, 17⟩,
  ⟨"Chan Up", 21, 18⟩,
  ⟨"Bank", 20, 19⟩,
  ⟨"Chan Down", 19, 20⟩,
  ⟨"Read", 10, 13⟩,
  ⟨"Write", 9, 14⟩,
  ⟨"Touch", 8, 15⟩,
  ⟨"Off", 23, 16⟩,
  ⟨"Undo", 14, 9⟩,
  ⟨"Trns", 13, 10⟩,
  ⟨"Proj", 12, 11⟩,
  ⟨"Mix", 11, 12⟩,
  ⟨"Shift", 2, 5⟩,
  ⟨"Punch", 1, 6⟩,
  ⟨"User", 0, 7⟩,
  ⟨"Loop", 15, 8⟩,
  ⟨"Record", 7, 0⟩,
  ⟨"Play", 6, 1⟩,
  ⟨"Stop", 5, 2⟩,
  ⟨"Fast Fwd", 4, 3⟩,
  ⟨"Rewind", 3, 4⟩]

/-- ASCII model of Python's notion of a cased character, as used by
`str.title()` word boundaries; the button names are all ASCII. -/
def isCasedChar (c : Char) : Bool :=
  (decide (65 ≤ c.toNat) && decide (c.toNat ≤ 90)) ||
    (decide (97 ≤ c.toNat) && decide (c.toNat ≤ 122))

/-- Model of Python's `str.title()` over a character list: a character is
uppercased when the previous character is not cased, lowercased otherwise. -/
def titleMap : Bool → List Char → List Char
  | _, [] => []
  | prevCased, c :: cs =>
    (if prevCased then c.toLower else c.toUpper) :: titleMap (isCasedChar c) cs

/-- Model of Python's `name.title()` on strings. -/
def pyTitle (s : String) : String := ⟨titleMap false s.data⟩

/-- Association-list model of the Python dict `_button_from_name`: one entry
per button keyed by its name, plus the alias entry `"Rec Arm"` mapping to the
same button as `"Rec"`. -/
def NAME_TABLE : List (String × Button) :=
  BUTTONS.map (fun b => (b.name, b)) ++ [("Rec Arm", ⟨"Rec", 16, 23⟩)]

/-- First-match association lookup; the keys of `NAME_TABLE` are distinct, so
this coincides with the Python dict lookup. -/
def lookupName : List (String × Button) → String → Option Button
  | [], _ => none
  | (k, b) :: rest, n => if n = k then some b else lookupName rest n

/-- Model of `button_from_name`: `_button_from_name[name.title()]`.
The `none` result models the `KeyError` (the spec's `NotFound`). -/
def button_from_name (n : String) : Option Button :=
  lookupName NAME_TABLE (pyTitle n)

/-- First-match lookup by press code; press codes are distinct across
`BUTTONS`, so this coincides with the Python dict `_button_from_press`. -/
def lookupPress : List Button → Nat → Option Button
  | [], _ => none
  | b :: rest, p => if b.press = p then some b else lookupPress rest p

/-- Model of `button_from_press`: `_button_from_press.get(press, None)`. -/
def button_from_press (p : Nat) : Option Button :=
  lookupPress BUTTONS p

/-- The `CHARACTERS` table of `faderport.py`: hex character to the button
indices lit to render it. -/
def CHARACTERS : List (Char × List Nat) := [
  ('0', [0, 1, 3, 6, 7, 9, 10, 11, 13, 14, 15, 18, 20, 21, 22]),
  ('1', [1, 4, 5, 9, 12, 17, 19, 20, 21, 22]),
  ('2', [0, 1, 3, 6, 10, 12, 16, 19, 20, 21, 22, 23]),
  ('3', [0, 1, 3, 6, 9, 11, 15, 18, 20, 21, 22]),
  ('4', [1, 4, 5, 7, 9, 11, 12, 13, 14, 17, 20, 21]),
  ('5', [0, 1, 2, 6, 7, 8, 9, 11, 15, 18, 20, 21, 22]),
  ('6', [0, 1, 2, 6, 7, 8, 9, 11, 14, 15, 18, 20, 21, 22]),
  ('7', [3, 4, 5, 6, 10, 12, 16, 23]),
  ('8', [0, 1, 3, 6, 8, 9, 11, 14, 15, 18, 20, 21, 22]),
  ('9', [0, 1, 3, 6, 8, 9, 10, 11, 15, 18, 20, 21, 22]),
  ('A', [4, 5, 7, 10, 11, 12, 13, 14, 15, 18, 19, 23]),
  ('B', [4, 5, 6, 7, 10, 12, 13, 14, 15, 18, 20, 21, 22, 23]),
  ('C', [4, 5, 7, 10, 14, 15, 18, 20, 21, 22]),
  ('D', [4, 5, 6, 7, 10, 11, 14, 15, 18, 20, 21, 22, 23]),
  ('E', [4, 5, 6, 7, 13, 14, 15, 20, 21, 22, 23]),
  ('F', [4, 5, 6, 7, 13, 14, 15, 23])]

/-- First-match glyph lookup, modelling `CHARACTERS[c]`. -/
def lookupGlyph : List (Char × List Nat) → Char → Option (List Nat)
  | [], _ => none
  | (k, g) :: rest, c => if c = k then some g else lookupGlyph rest c

/-- Inbound MIDI messages as consumed by `FaderPort._message_callback`. -/
inductive MidiIn where
  | polytouch (note : Nat) (value : Nat)
  | control_change (control : Nat) (value : Nat)
  | pitchwheel (pitch : Int)
  | other
deriving DecidableEq, Repr

/-- Outbound MIDI messages as produced by the control operations. -/
inductive MidiOut where
  | control_change (control : Nat) (value : Nat)
  | polytouch (note : Nat) (value : Nat)
deriving DecidableEq, Repr

/-- The hook invocations (`on_button`, `on_fader_touch`, `on_fader`,
`on_rotary`) plus the `Unhandled` diagnostic print, observed as events. -/
inductive Event where
  | onButton (b : Button) (pressed : Bool)
  | onFaderTouch (touched : Bool)
  | onFader (value : Nat)
  | onRotary (direction : Int)
  | unhandled
deriving DecidableEq, Repr

/-- The session's mutable state: the cached fader position `_fader` and the
pending most-significant byte `_msb`. -/
structure SessionState where
  fader : Nat
  msb : Nat
deriving DecidableEq, Repr

/-- The state after `__init__` (and after `open`, which does not touch it):
`_fader = 0`, `_msb = 0`. -/
def initState : SessionState := ⟨0, 0⟩

/-- Model of `FaderPort._message_callback`: classify one inbound message,
returning the updated session state and the list of hook calls made. -/
def message_callback (s : SessionState) (msg : MidiIn) : SessionState × List Event :=
  match msg with
  | .polytouch note value =>
    match button_from_press note with
    | some button => (s, [.onButton button (value != 0)])
    | none =>
      if note = 127 then (s, [.onFaderTouch (value != 0)]) else (s, [])
  | .control_change 0 value => ({ s with msb := value }, [])
  | .control_change 32 value =>
    let f := (s.msb <<< 7 ||| value) >>> 4
    ({ s with fader := f }, [.onFader f])
  | .pitchwheel pitch => (s, [.onRotary (if pitch < 0 then 1 else -1)])
  | _ => (s, [.unhandled])

/-- Feed a list of inbound messages through `message_callback`, collecting
all hook calls in order. -/
def runCallback (s : SessionState) : List MidiIn → SessionState × List Event
  | [] => (s, [])
  | m :: ms =>
    let r := message_callback s m
    let r2 := runCallback r.1 ms
    (r2.1, r.2 ++ r2.2)

/-- Model of the `fader` property getter: return the cached position. -/
def getFader (s : SessionState) : Nat := s.fader

/-- Model of the `fader` property setter: clamp (`int(value) if
0 < value < 1024 else 0`), cache, then send control 0 with `_fader >> 7`
and control 32 with `_fader & 0x7F`. -/
def setFader (s : SessionState) (value : Int) : SessionState × List MidiOut :=
  let f : Nat := if 0 < value ∧ value < 1024 then value.toNat else 0
  ({ s with fader := f },
    [.control_change 0 (f >>> 7), .control_change 32 (f &&& 0x7F)])

/-- Model of `light_on`: send `polytouch` with the button's light code and
value 1. -/
def light_on (b : Button) : MidiOut := .polytouch b.light 1

/-- The messages sent by the `char_on` loop for a list of button indices;
`none` models the `IndexError` raised when `BUTTONS[i]` is out of range. -/
def sendLights : List Nat → Option (List MidiOut)
  | [] => some []
  | i :: rest =>
    match BUTTONS[i]?, sendLights rest with
    | some b, some ms => some (light_on b :: ms)
    | _, _ => none

/-- Model of `FaderPort.char_on`: look up `c.upper()` in `CHARACTERS`; when
present light every listed button index, otherwise do nothing. -/
def char_on (c : Char) : Option (List MidiOut) :=
  match lookupGlyph CHARACTERS c.toUpper with
  | some g => sendLights g
  | none => some []

/-- The decoding combination from `_message_callback`:
`(msb << 7 | lsb) >> 4`. -/
def decodeFader (msb lsb : Nat) : Nat := (msb <<< 7 ||| lsb) >>> 4

/-- The encoding split from the `fader` setter: field A `value >> 7`,
field B `value & 0x7F`. -/
def encodeFader (v : Nat) : Nat × Nat := (v >>> 7, v &&& 0x7F)

/-! Helper lemmas about ASCII case mapping, lookups and glyph bounds. -/

theorem Char.toNat_ofNat_of_valid {n : Nat} (h : n.isValidChar) :
    (Char.ofNat n).toNat = n := by
  unfold Char.ofNat
  rw [dif_pos h]
  rfl

theorem char_eq_of_toNat_eq {c d : Char} (h : c.toNat = d.toNat) : c = d :=
  Char.ext (UInt32.ext h)

theorem toNat_toLower (c : Char) :
    c.toLower.toNat = if 65 ≤ c.toNat ∧ c.toNat ≤ 90 then c.toNat + 32 else c.toNat := by
  unfold Char.toLower
  simp only [ge_iff_le]
  by_cases h : 65 ≤ c.toNat ∧ c.toNat ≤ 90
  · rw [if_pos h, if_pos h]
    exact Char.toNat_ofNat_of_valid (Or.inl (by omega))
  · rw [if_neg h, if_neg h]

theorem toNat_toUpper (c : Char) :
    c.toUpper.toNat = if 97 ≤ c.toNat ∧ c.toNat ≤ 122 then c.toNat - 32 else c.toNat := by
  unfold Char.toUpper
  simp only [ge_iff_le]
  by_cases h : 97 ≤ c.toNat ∧ c.toNat ≤ 122
  · rw [if_pos h, if_pos h]
    exact Char.toNat_ofNat_of_valid (Or.inl (by omega))
  · rw [if_neg h, if_neg h]

theorem toLower_toLower (c : Char) : c.toLower.toLower = c.toLower := by
  apply char_eq_of_toNat_eq
  rw [toNat_toLower c.toLower, toNat_toLower c]
  by_cases hP : 65 ≤ c.toNat ∧ c.toNat ≤ 90
  · simp only [if_pos hP]
    split <;> omega
  · simp only [if_neg hP]

theorem toUpper_toLower (c : Char) : c.toLower.toUpper = c.toUpper := by
  apply char_eq_of_toNat_eq
  rw [toNat_toUpper c.toLower, toNat_toLower c, toNat_toUpper c]
  by_cases hP : 65 ≤ c.toNat ∧ c.toNat ≤ 90
  · simp only [if_pos hP]
    split <;> split <;> omega
  · simp only [if_neg hP]

theorem toUpper_toUpper (c : Char) : c.toUpper.toUpper = c.toUpper := by
  apply char_eq_of_toNat_eq
  rw [toNat_toUpper c.toUpper, toNat_toUpper c]
  by_cases hP : 97 ≤ c.toNat ∧ c.toNat ≤ 122
  · simp only [if_pos hP]
    split <;> omega
  · simp only [if_neg hP]

theorem isCasedChar_toLower (c : Char) : isCasedChar c.toLower = isCasedChar c := by
  unfold isCasedChar
  rw [toNat_toLower c]
  by_cases hP : 65 ≤ c.toNat ∧ c.toNat ≤ 90
  · simp only [if_pos hP]
    refine Bool.eq_iff_iff.mpr ?_
    simp only [Bool.or_eq_true, Bool.and_eq_true, decide_eq_true_eq]
    omega
  · simp only [if_neg hP]

theorem titleMap_map_toLower (b : Bool) (l : List Char) :
    titleMap b (l.map Char.toLower) = titleMap b l := by
  induction l generalizing b with
  | nil => rfl
  | cons c cs ih =>
    simp only [List.map_cons, titleMap]
    rw [toLower_toLower c, toUpper_toLower c, isCasedChar_toLower c, ih]

theorem button_from_name_lower_congr {s t : String}
    (h : s.data.map Char.toLower = t.data.map Char.toLower) :
    button_from_name s = button_from_name t := by
  unfold button_from_name pyTitle
  rw [← titleMap_map_toLower false s.data, h, titleMap_map_toLower]

theorem lookupName_eq_none {l : List (String × Button)} {n : String}
    (h : ∀ k ∈ l.map Prod.fst, k ≠ n) : lookupName l n = none := by
  induction l with
  | nil => rfl
  | cons p rest ih =>
    obtain ⟨k, b⟩ := p
    simp only [lookupName]
    rw [if_neg fun he => h k (by simp) he.symm]
    exact ih fun k2 hk2 => h k2 (by simp [hk2])

theorem lookupGlyph_mem {l : List (Char × List Nat)} {u : Char} {g : List Nat}
    (h : lookupGlyph l u = some g) : g ∈ l.map Prod.snd := by
  induction l with
  | nil => simp [lookupGlyph] at h
  | cons p rest ih =>
    obtain ⟨k, g2⟩ := p
    simp only [lookupGlyph] at h
    by_cases he : u = k
    · rw [if_pos he] at h
      simp only [Option.some.injEq] at h
      simp [h]
    · rw [if_neg he] at h
      simp [ih h]

theorem sendLights_isSome {l : List Nat} (h : ∀ i ∈ l, i < BUTTONS.length) :
    (sendLights l).isSome := by
  induction l with
  | nil => rfl
  | cons i rest ih =>
    simp only [sendLights]
    have hi : i < BUTTONS.length := h i (List.mem_cons_self i rest)
    rw [List.getElem?_eq_getElem hi]
    have hr := ih fun j hj => h j (List.mem_cons_of_mem i hj)
    obtain ⟨ms, hm⟩ := Option.isSome_iff_exists.mp hr
    rw [hm]
    rfl

/-! Theorems for the specification claims. -/

/-- Claim C1, as stated, is false at its own concrete input: after an open
session receives control 0 with value 10 and control 32 with value 64, the
single `on_fader` call carries `(10 <<< 7 ||| 64) >>> 4 = 84`, not 80. -/
theorem fader_end_to_end_cex :
    (runCallback initState [.control_change 0 10, .control_change 32 64]).2
      ≠ [.onFader 80] ∧ (10 <<< 7 ||| 64) >>> 4 ≠ 80 := by decide

/-- Claim C1 (amended): when an open session receives a control 0 message
with value 10 and then a control 32 message with value 64, exactly one
`on_fader` call occurs, with new position `(10 <<< 7 ||| 64) >>> 4 = 84`,
and that value becomes the cached fader position. -/
theorem fader_end_to_end :
    runCallback initState [.control_change 0 10, .control_change 32 64] =
      ({ fader := 84, msb := 10 }, [.onFader 84]) ∧
    (10 <<< 7 ||| 64) >>> 4 = 84 ∧ decodeFader 10 64 = 84 := by decide

/-- Claim C2, as stated, is false at V = 127: decoding the encoded fields
yields `127 >>> 4 = 7`, while `(127 >>> 4) <<< 4 = 112`. -/
theorem fader_round_trip_cex :
    decodeFader (encodeFader 127).1 (encodeFader 127).2 = 7 ∧
    127 >>> 4 <<< 4 = 112 ∧
    decodeFader (encodeFader 127).1 (encodeFader 127).2 ≠ 127 >>> 4 <<< 4 := by
  decide

/-- Claim C2 (amended): for every V in [0,1023], encoding V as field A =
`V >>> 7`, field B = `V &&& 0x7F` and decoding with the combination of §4.3
yields `V >>> 4` (not `(V >>> 4) <<< 4`); in particular at 0, 1, 127, 128
and 1023. -/
theorem fader_round_trip :
    ∀ V < 1024, decodeFader (encodeFader V).1 (encodeFader V).2 = V >>> 4 := by
  decide

/-- Witness for `fader_round_trip` at the boundary value V = 1023. -/
theorem fader_round_trip_witness :
    decodeFader (encodeFader 1023).1 (encodeFader 1023).2 = 1023 >>> 4 :=
  fader_round_trip 1023 (by decide)

/-- Claim C3: a control 0 message only stores its value as the pending MSB
(cached fader unchanged, no hook called); a control 32 message leaves the
pending MSB unchanged and combines it with the incoming value, so several
consecutive control 32 messages all combine with the same stored MSB. -/
theorem fader_msb_sticky :
    (∀ s v, message_callback s (.control_change 0 v) =
      ({ fader := s.fader, msb := v }, [])) ∧
    (∀ s v, message_callback s (.control_change 32 v) =
      ({ fader := (s.msb <<< 7 ||| v) >>> 4, msb := s.msb },
        [.onFader ((s.msb <<< 7 ||| v) >>> 4)])) ∧
    (∀ s v1 v2, (runCallback s [.control_change 32 v1, .control_change 32 v2]).2 =
      [.onFader ((s.msb <<< 7 ||| v1) >>> 4), .onFader ((s.msb <<< 7 ||| v2) >>> 4)]) :=
  ⟨fun _ _ => rfl, fun _ _ => rfl, fun _ _ _ => rfl⟩

/-- Claim C4: setting the fader to a value outside the open interval
(0, 1024) resets the cached position to 0; a value strictly inside is cached
as given; either way the two outbound messages are control 0 with
`cached >>> 7` then control 32 with `cached &&& 0x7F`, and the getter
returns the cached position. -/
theorem fader_setter_contract :
    (∀ s (v : Int), v ≤ 0 ∨ 1024 ≤ v → (setFader s v).1.fader = 0) ∧
    (∀ s (v : Int), 0 < v → v < 1024 → ((setFader s v).1.fader : Int) = v) ∧
    (∀ s (v : Int), (setFader s v).2 =
      [.control_change 0 ((setFader s v).1.fader >>> 7),
        .control_change 32 ((setFader s v).1.fader &&& 0x7F)]) ∧
    (∀ s (v : Int), getFader (setFader s v).1 = (setFader s v).1.fader) := by
  refine ⟨fun s v h => ?_, fun s v h1 h2 => ?_, fun s v => rfl, fun s v => rfl⟩
  · simp only [setFader]
    rw [if_neg (by omega : ¬(0 < v ∧ v < 1024))]
  · simp only [setFader]
    rw [if_pos ⟨h1, h2⟩]
    exact Int.toNat_of_nonneg (le_of_lt h1)

/-- Witness for `fader_setter_contract` at 0, 1024, -3 and 500. -/
theorem fader_setter_contract_witness :
    (setFader initState 0).1.fader = 0 ∧
    (setFader initState 1024).1.fader = 0 ∧
    (setFader initState (-3)).1.fader = 0 ∧
    ((setFader initState 500).1.fader : Int) = 500 :=
  ⟨fader_setter_contract.1 initState 0 (Or.inl (by decide)),
    fader_setter_contract.1 initState 1024 (Or.inr (by decide)),
    fader_setter_contract.1 initState (-3) (Or.inl (by decide)),
    fader_setter_contract.2.1 initState 500 (by decide) (by decide)⟩

/-- Claim C5: no registered button has press code 127, `button_from_press`
returns an absent result for 127, and the dispatcher routes a note-like
message with identity 127 to `on_fader_touch(value ≠ 0)`. -/
theorem fader_touch_sentinel :
    button_from_press 127 = none ∧
    (∀ b ∈ BUTTONS, b.press ≠ 127) ∧
    (∀ s v, message_callback s (.polytouch 127 v) =
      (s, [.onFaderTouch (v != 0)])) :=
  ⟨by decide, by decide, fun _ _ => rfl⟩

/-- Witness for `fader_touch_sentinel` at the Mute button and a touch. -/
theorem fader_touch_sentinel_witness :
    (Button.mk "Mute" 18 21).press ≠ 127 ∧
    message_callback initState (.polytouch 127 1) =
      (initState, [.onFaderTouch true]) :=
  ⟨fader_touch_sentinel.2.1 ⟨"Mute", 18, 21⟩ (by decide),
    fader_touch_sentinel.2.2 initState 1⟩

/-- Claim C6: every pitchwheel message produces exactly one `on_rotary`
call, with direction +1 when the raw pitch is negative and -1 otherwise. -/
theorem rotary_sign_inversion :
    ∀ s (p : Int),
      (p < 0 → message_callback s (.pitchwheel p) = (s, [.onRotary 1])) ∧
      (0 ≤ p → message_callback s (.pitchwheel p) = (s, [.onRotary (-1)])) := by
  intro s p
  constructor
  · intro h
    simp only [message_callback, if_pos h]
  · intro h
    simp only [message_callback, if_neg (by omega : ¬p < 0)]

/-- Witness for `rotary_sign_inversion` at pitch -5, +5 and 0. -/
theorem rotary_sign_inversion_witness :
    message_callback initState (.pitchwheel (-5)) = (initState, [.onRotary 1]) ∧
    message_callback initState (.pitchwheel 5) = (initState, [.onRotary (-1)]) ∧
    message_callback initState (.pitchwheel 0) = (initState, [.onRotary (-1)]) :=
  ⟨(rotary_sign_inversion initState (-5)).1 (by decide),
    (rotary_sign_inversion initState 5).2 (by decide),
    (rotary_sign_inversion initState 0).2 (by decide)⟩

/-- Claim C7: for every defined button, looking the button up by name and
then looking up its press code yields the same button again. -/
theorem registry_round_trip :
    ∀ b ∈ BUTTONS,
      (button_from_name b.name).isSome ∧
      (button_from_name b.name).bind (fun c => button_from_press c.press) =
        button_from_name b.name := by decide

/-- Witness for `registry_round_trip` at the Mute button. -/
theorem registry_round_trip_witness :
    (button_from_name "Mute").isSome ∧
    (button_from_name "Mute").bind (fun c => button_from_press c.press) =
      button_from_name "Mute" :=
  registry_round_trip ⟨"Mute", 18, 21⟩ (by decide)

/-- Claim C8: `button_from_name` is case-insensitive (canonicalizing via
title case) and alias-aware: any casing of "Rec Arm" and any casing of
"Rec" resolve to the same button, and a name whose canonical form matches
no button or alias yields the `NotFound` result. -/
theorem button_name_alias_case_insensitive :
    (∀ s t : String, s.data.map Char.toLower = "rec arm".data →
      t.data.map Char.toLower = "rec".data →
      button_from_name s = button_from_name t ∧
        button_from_name s = some ⟨"Rec", 16, 23⟩) ∧
    (∀ s : String, (∀ k ∈ NAME_TABLE.map Prod.fst, k ≠ pyTitle s) →
      button_from_name s = none) := by
  constructor
  · intro s t hs ht
    have h1 : button_from_name s = button_from_name "rec arm" :=
      button_from_name_lower_congr (by rw [hs]; decide)
    have h2 : button_from_name t = button_from_name "rec" :=
      button_from_name_lower_congr (by rw [ht]; decide)
    rw [h1, h2]
    exact ⟨by decide, by decide⟩
  · intro s h
    exact lookupName_eq_none h

/-- Witness for `button_name_alias_case_insensitive` at two mixed casings
and at a name matching no button. -/
theorem button_name_alias_witness :
    button_from_name "rEC aRM" = button_from_name "REC" ∧
    button_from_name "rEC aRM" = some ⟨"Rec", 16, 23⟩ ∧
    button_from_name "Faderport" = none :=
  ⟨(button_name_alias_case_insensitive.1 "rEC aRM" "REC" (by decide)
      (by decide)).1,
    (button_name_alias_case_insensitive.1 "rEC aRM" "REC" (by decide)
      (by decide)).2,
    button_name_alias_case_insensitive.2 "Faderport" (by decide)⟩

/-- Claim C9: `char_on '0'` emits exactly one light-on message per listed
index, addressed to that button's light code (15 in all); lookup is
case-insensitive; an unsupported character such as 'g' sends nothing and
raises no error. -/
theorem char_rendering :
    char_on '0' = some
      [.polytouch 21 1, .polytouch 22 1, .polytouch 17 1, .polytouch 20 1,
        .polytouch 13 1, .polytouch 15 1, .polytouch 16 1, .polytouch 9 1,
        .polytouch 11 1, .polytouch 12 1, .polytouch 5 1, .polytouch 8 1,
        .polytouch 1 1, .polytouch 2 1, .polytouch 3 1] ∧
    (lookupGlyph CHARACTERS '0').map List.length = some 15 ∧
    char_on 'g' = some [] ∧
    ∀ c : Char, char_on c = char_on c.toUpper := by
  refine ⟨by decide, by decide, by decide, fun c => ?_⟩
  unfold char_on
  rw [toUpper_toUpper]

/-- Claim C10: every index in every glyph is below 24, `BUTTONS` has exactly
24 entries, and consequently `char_on` never indexes out of range: it
succeeds on every character. -/
theorem glyph_indices_in_bounds :
    (∀ p ∈ CHARACTERS, ∀ i ∈ p.2, i < 24) ∧ BUTTONS.length = 24 ∧
      ∀ c : Char, (char_on c).isSome := by
  refine ⟨by decide, by decide, fun c => ?_⟩
  cases hg : lookupGlyph CHARACTERS c.toUpper with
  | none => simp [char_on, hg]
  | some g =>
    simp only [char_on, hg]
    exact sendLights_isSome fun i hi =>
      (by decide : ∀ g2 ∈ CHARACTERS.map Prod.snd, ∀ j ∈ g2, j < BUTTONS.length)
        g (lookupGlyph_mem hg) i hi

/-- Witness for `glyph_indices_in_bounds` at the glyph of '0' and at 'A'. -/
theorem glyph_indices_in_bounds_witness :
    (∀ i ∈ (('0', [0, 1, 3, 6, 7, 9, 10, 11, 13, 14, 15, 18, 20, 21, 22]) :
        Char × List Nat).2, i < 24) ∧
      (char_on 'A').isSome :=
  ⟨glyph_indices_in_bounds.1
      ('0', [0, 1, 3, 6, 7, 9, 10, 11, 13, 14, 15, 18, 20, 21, 22])
      (by decide),
    glyph_indices_in_bounds.2.2 'A'⟩

/-- Witness for `fader_msb_sticky` at MSB 10 and value 64. -/
theorem fader_msb_sticky_witness :
    message_callback initState (.control_change 0 10) =
      ({ fader := 0, msb := 10 }, []) ∧
    message_callback ⟨0, 10⟩ (.control_change 32 64) =
      (⟨84, 10⟩, [.onFader 84]) ∧
    (runCallback ⟨0, 10⟩ [.control_change 32 64, .control_change 32 64]).2 =
      [.onFader 84, .onFader 84] :=
  ⟨fader_msb_sticky.1 initState 10, fader_msb_sticky.2.1 ⟨0, 10⟩ 64,
    fader_msb_sticky.2.2 ⟨0, 10⟩ 64 64⟩

/-- Witness for `char_rendering`: lower-case input is accepted. -/
theorem char_rendering_witness : char_on 'b' = char_on 'B' :=
  char_rendering.2.2.2 'b'
